import Mathlib

set_option autoImplicit false
set_option maxRecDepth 8192

/-!
Verification development for the `The-AI-Engineer-Challenge` repository.

The repository consists of FastAPI backends (`api/index.py`, `api/backend.py`,
`api/backend_simplified.py`) that call the OpenAI API and post-process the
responses.  We shallowly embed the request handlers and their helper
functions.  Every call to an external service (the OpenAI chat/image API,
`httpx` network fetches, the DuckDuckGo scrape) is modelled by an oracle
value passed as an argument: `Except PyErr String` stands for "the call
either raised or produced this response text".  Exceptions are modelled by
`Except`; Python strings are Lean `String`s; dynamically-typed JSON data is
the `Json` inductive below, together with Python-semantics operations
(`truthy`, `.get`, `len`, slicing, iteration, `int(...)`) that raise
(`Except PyErr`) exactly where the Python operations raise.
-/

/-- Python exception kinds that the embedded code distinguishes. -/
inductive PyErr where
  | jsonDecodeError
  | attributeError
  | typeError
  | valueError
  | apiError (msg : String)
  deriving DecidableEq, Repr

/-- Python whitespace characters (the ASCII ones: the payloads in this
repository contain no exotic unicode whitespace). -/
def isPyWs (c : Char) : Bool :=
  c = ' ' || c = '\t' || c = '\n' || c = '\r' || c = '\x0b' || c = '\x0c'

/-- Python `str.strip()`. -/
def pyStrip (s : String) : String :=
  String.mk (((s.toList.dropWhile isPyWs).reverse.dropWhile isPyWs).reverse)

/-- Python `str.startswith(pre)`. -/
def pyStartswith (s pre : String) : Bool :=
  pre.toList.isPrefixOf s.toList

/-- Python `str.endswith(suf)`. -/
def pyEndswith (s suf : String) : Bool :=
  suf.toList.isSuffixOf s.toList

/-- Python `needle in hay` on strings (contiguous substring test). -/
def pyIn (needle hay : String) : Bool :=
  let n := needle.toList
  let h := hay.toList
  (List.range (h.length + 1)).any (fun i => n.isPrefixOf (h.drop i))

/-- Python `s[n:]` for `n ≥ 0` (drop the first `n` characters). -/
def pyDrop (n : Nat) (s : String) : String := String.mk (s.toList.drop n)

/-- Python `s[:-n]` for `n ≥ 0` (drop the last `n` characters, empty if short). -/
def pyDropRight (n : Nat) (s : String) : String :=
  String.mk (s.toList.take (s.toList.length - n))

/-- Python `s[:n]` for `n ≥ 0`. -/
def pyTake (n : Nat) (s : String) : String := String.mk (s.toList.take n)

/-- Python `str.upper()` (ASCII case map, which covers the uses here). -/
def pyUpper (s : String) : String := String.mk (s.toList.map Char.toUpper)

/-- Python `str.lower()` (ASCII case map, which covers the uses here). -/
def pyLower (s : String) : String := String.mk (s.toList.map Char.toLower)

/-- Python `str.split()` with no argument: split on whitespace runs,
discarding empty pieces (`acc` holds the current word, reversed). -/
def splitWsL : List Char → List Char → List String
  | [], acc => if acc = [] then [] else [String.mk acc.reverse]
  | c :: cs, acc =>
    if isPyWs c then
      if acc = [] then splitWsL cs []
      else String.mk acc.reverse :: splitWsL cs []
    else splitWsL cs (c :: acc)

def pySplitWs (s : String) : List String := splitWsL s.toList []

/-- Python `re.sub(r'[.,;:]+$', '', s)`: remove a trailing run of `.,;:`. -/
def dropTrailingPunct (s : String) : String :=
  String.mk ((s.toList.reverse.dropWhile
    (fun c => c = '.' || c = ',' || c = ';' || c = ':')).reverse)

/-- Python `re.sub(r'\s+', ' ', s)`: collapse each whitespace run to one
space (the space is emitted when the run ends). -/
def collapseWsL : List Char → List Char
  | [] => []
  | [c] => if isPyWs c then [' '] else [c]
  | c :: d :: cs =>
    if isPyWs c then
      if isPyWs d then collapseWsL (d :: cs)
      else ' ' :: collapseWsL (d :: cs)
    else c :: collapseWsL (d :: cs)

def collapseWs (s : String) : String := String.mk (collapseWsL s.toList)

/-- Python `s.replace(pat, rep)`: replace every non-overlapping occurrence,
scanning left to right.  The patterns used in the source are non-empty;
fuel-based recursion (the fuel is the input length, and every step consumes
at least one character) keeps the definition kernel-reducible. -/
def replaceAllL (pat rep : List Char) : Nat → List Char → List Char
  | _, [] => []
  | 0, s => s
  | fuel + 1, c :: cs =>
    if pat ≠ [] ∧ pat.isPrefixOf (c :: cs) then
      rep ++ replaceAllL pat rep fuel (List.drop (pat.length - 1) cs)
    else c :: replaceAllL pat rep fuel cs

def pyReplace (s pat rep : String) : String :=
  String.mk (replaceAllL pat.toList rep.toList s.toList.length s.toList)

/-- First maximal run of decimal digits in `s` — `re.search(r'(\d+)', s)`. -/
def firstDigitRun (s : String) : Option String :=
  let cs := s.toList.dropWhile (fun c => !c.isDigit)
  match cs with
  | [] => none
  | _ => some (String.mk (cs.takeWhile Char.isDigit))

def digitsToNat? (cs : List Char) : Option Nat :=
  if cs ≠ [] ∧ cs.all Char.isDigit then
    some (cs.foldl (fun acc c => 10 * acc + (c.toNat - '0'.toNat)) 0)
  else none

/-- Python `int(s)` on a string: optional sign, then digits (surrounding
whitespace is stripped by the caller; digit-group underscores are not used
by any payload here). -/
def strToInt (s : String) : Option Int :=
  match s.toList with
  | '-' :: ds => (digitsToNat? ds).map (fun n => -(n : Int))
  | '+' :: ds => (digitsToNat? ds).map (fun n => (n : Int))
  | ds => (digitsToNat? ds).map (fun n => (n : Int))

def isHexDig (c : Char) : Bool :=
  c.isDigit || ('a' ≤ c && c ≤ 'f') || ('A' ≤ c && c ≤ 'F')

def hexVal (c : Char) : Nat :=
  if c.isDigit then c.toNat - '0'.toNat
  else if 'a' ≤ c ∧ c ≤ 'f' then c.toNat - 'a'.toNat + 10
  else if 'A' ≤ c ∧ c ≤ 'F' then c.toNat - 'A'.toNat + 10
  else 0

/-- Percent-decoding as in `urllib.parse.unquote`, on the ASCII escapes that
occur in DuckDuckGo redirect URLs (multi-byte UTF-8 sequences are out of
scope for the claims; invalid escapes are left as-is, as `unquote` does). -/
def unquoteL : List Char → List Char
  | [] => []
  | '%' :: a :: b :: rest =>
    if isHexDig a && isHexDig b then
      Char.ofNat (16 * hexVal a + hexVal b) :: unquoteL rest
    else '%' :: unquoteL (a :: b :: rest)
  | c :: cs => c :: unquoteL cs

def pyUnquote (s : String) : String := String.mk (unquoteL s.toList)

/-! ## The JSON data model (result of `json.loads`)

Numbers are restricted to integers: no payload relevant to the claims
contains fractional numbers, and the parser below rejects them, which only
widens the "decode error" case that the code under verification already
handles. -/

inductive Json where
  | null
  | bool (b : Bool)
  | num (n : Int)
  | str (s : String)
  | arr (xs : List Json)
  | obj (kvs : List (String × Json))

mutual
def Json.beq : Json → Json → Bool
  | .null, .null => true
  | .bool a, .bool b => a == b
  | .num a, .num b => a == b
  | .str a, .str b => a == b
  | .arr a, .arr b => beqListJ a b
  | .obj a, .obj b => beqKVs a b
  | _, _ => false

def beqListJ : List Json → List Json → Bool
  | [], [] => true
  | a :: as, b :: bs => Json.beq a b && beqListJ as bs
  | _, _ => false

def beqKVs : List (String × Json) → List (String × Json) → Bool
  | [], [] => true
  | (k, v) :: as, (k2, v2) :: bs => k == k2 && Json.beq v v2 && beqKVs as bs
  | _, _ => false
end

instance : BEq Json := ⟨Json.beq⟩

/-- Python truthiness of a JSON value. -/
def Json.truthy : Json → Bool
  | .null => false
  | .bool b => b
  | .num n => n != 0
  | .str s => s ≠ ""
  | .arr xs => !xs.isEmpty
  | .obj kvs => !kvs.isEmpty

def Json.isObj : Json → Bool
  | .obj _ => true
  | _ => false

/-- Python dict lookup (the parser deduplicates keys, mirroring `json.loads`). -/
def lookupJ : List (String × Json) → String → Option Json
  | [], _ => none
  | (k', v) :: rest, k => if k' = k then some v else lookupJ rest k

/-- Model of `data.get(key, default)`: raises `AttributeError` when `data` is not a
dict, exactly as in Python. -/
def pyGet : Json → String → Json → Except PyErr Json
  | .obj kvs, k, dflt => .ok ((lookupJ kvs k).getD dflt)
  | _, _, _ => .error .attributeError

/-- Python `len(...)` on a JSON value. -/
def pyLen : Json → Except PyErr Nat
  | .arr xs => .ok xs.length
  | .str s => .ok s.length
  | .obj kvs => .ok kvs.length
  | _ => .error .typeError

/-- Python iteration `for x in v`. -/
def pyIterate : Json → Except PyErr (List Json)
  | .arr xs => .ok xs
  | .str s => .ok (s.toList.map (fun c => Json.str (String.mk [c])))
  | .obj kvs => .ok (kvs.map (fun kv => Json.str kv.1))
  | _ => .error .typeError

/-- Python list slicing `l[:n]` including the negative-index case. -/
def listSliceTo {α : Type} (l : List α) (n : Int) : List α :=
  if 0 ≤ n then l.take n.toNat
  else l.take ((l.length : Int) + n).toNat

/-- Python `v[:n]` on a JSON value. -/
def pySliceTo : Json → Int → Except PyErr Json
  | .arr xs, n => .ok (.arr (listSliceTo xs n))
  | .str s, n => .ok (.str (String.mk (listSliceTo s.toList n)))
  | _, _ => .error .typeError

/-- Python `int(v)` on a JSON value. -/
def pyInt : Json → Except PyErr Int
  | .num n => .ok n
  | .bool b => .ok (if b then 1 else 0)
  | .str s =>
    match strToInt (pyStrip s) with
    | some n => .ok n
    | none => .error .valueError
  | _ => .error .typeError

/-- A `.strip()` (or other `str` method) applied to a JSON value: raises
`AttributeError` unless the value is a string. -/
def pyStrType : Json → Except PyErr String
  | .str s => .ok s
  | _ => .error .attributeError

/-- Model of `v.startswith(p)` on a JSON value. -/
def pyStartswithJ : Json → String → Except PyErr Bool
  | .str s, p => .ok (pyStartswith s p)
  | _, _ => .error .attributeError

mutual
/-- Python `str(...)` of a JSON value. -/
def pyStr : Json → String
  | .str s => s
  | .num n => toString n
  | .bool true => "True"
  | .bool false => "False"
  | .null => "None"
  | .arr xs => "[" ++ reprListJ xs ++ "]"
  | .obj kvs => "\x7b" ++ reprKVs kvs ++ "\x7d"

def pyRepr : Json → String
  | .str s => "\x27" ++ s ++ "\x27"
  | j => pyStr j

def reprListJ : List Json → String
  | [] => ""
  | [x] => pyRepr x
  | x :: xs => pyRepr x ++ ", " ++ reprListJ xs

def reprKVs : List (String × Json) → String
  | [] => ""
  | [(k, v)] => "\x27" ++ k ++ "\x27: " ++ pyRepr v
  | (k, v) :: kvs => "\x27" ++ k ++ "\x27: " ++ pyRepr v ++ ", " ++ reprKVs kvs
end

/-! ## A `json.loads` model

Recursive-descent parser with fuel (the fuel is larger than the input, so it
never runs out on meaningful inputs).  It accepts the JSON fragment actually
produced and consumed in this repository: null/true/false, integers, strings
with the common escapes, arrays and objects.  Duplicate object keys keep the
last value, as `json.loads` does. -/

def isJsonWs (c : Char) : Bool := c = ' ' || c = '\t' || c = '\n' || c = '\r'

def skipWs (cs : List Char) : List Char := cs.dropWhile isJsonWs

/-- Insert a key into an object association list the way successive
assignments into a Python dict behave: update in place, else append. -/
def insertPair (kvs : List (String × Json)) (k : String) (v : Json) :
    List (String × Json) :=
  match kvs with
  | [] => [(k, v)]
  | (k', v') :: rest =>
    if k' = k then (k', v) :: rest else (k', v') :: insertPair rest k v

/-- Build a dict from parsed pairs: later duplicates overwrite, keeping the
first-insertion position, as successive `dict` assignments do. -/
def dedupPairs (kvs : List (String × Json)) : List (String × Json) :=
  kvs.foldl (fun acc kv => insertPair acc kv.1 kv.2) []

def parseJString : Nat → List Char → Option (String × List Char)
  | 0, _ => none
  | _ + 1, [] => none
  | fuel + 1, c :: cs =>
    if c = '"' then some ("", cs)
    else if c = '\\' then
      match cs with
      | [] => none
      | e :: cs' =>
        let dec : Option (Char × List Char) :=
          if e = '"' then some ('"', cs')
          else if e = '\\' then some ('\\', cs')
          else if e = '/' then some ('/', cs')
          else if e = 'b' then some ('\x08', cs')
          else if e = 'f' then some ('\x0c', cs')
          else if e = 'n' then some ('\n', cs')
          else if e = 'r' then some ('\r', cs')
          else if e = 't' then some ('\t', cs')
          else if e = 'u' then
            match cs' with
            | h1 :: h2 :: h3 :: h4 :: cs'' =>
              if isHexDig h1 && isHexDig h2 && isHexDig h3 && isHexDig h4
              then some (Char.ofNat
                (4096 * hexVal h1 + 256 * hexVal h2 + 16 * hexVal h3 + hexVal h4), cs'')
              else none
            | _ => none
          else none
        match dec with
        | some (d, rest) =>
          match parseJString fuel rest with
          | some (s, rest') => some (String.mk (d :: s.toList), rest')
          | none => none
        | none => none
    else if c.toNat < 32 then none
    else
      match parseJString fuel cs with
      | some (s, rest) => some (String.mk (c :: s.toList), rest)
      | none => none

def parseJNat (cs : List Char) : Option (Nat × List Char) :=
  match cs with
  | [] => none
  | c :: _ =>
    if c.isDigit then
      let ds := cs.takeWhile Char.isDigit
      let rest := cs.dropWhile Char.isDigit
      -- JSON forbids leading zeros on multi-digit integers.
      if ds.length > 1 ∧ ds.headD '0' = '0' then none
      else
        match digitsToNat? ds with
        | some n => some (n, rest)
        | none => none
    else none

mutual
def parseJVal : Nat → List Char → Option (Json × List Char)
  | 0, _ => none
  | fuel + 1, cs =>
    match cs with
    | [] => none
    | c :: rest =>
      if c = 'n' then
        if ['u', 'l', 'l'].isPrefixOf rest then some (.null, rest.drop 3) else none
      else if c = 't' then
        if ['r', 'u', 'e'].isPrefixOf rest then some (.bool true, rest.drop 3) else none
      else if c = 'f' then
        if ['a', 'l', 's', 'e'].isPrefixOf rest then some (.bool false, rest.drop 4)
        else none
      else if c = '"' then
        match parseJString (fuel + 1) rest with
        | some (s, rest') => some (.str s, rest')
        | none => none
      else if c = '-' then
        match parseJNat rest with
        | some (n, rest') =>
          -- fractional and exponent forms are outside the modelled fragment
          match rest' with
          | d :: _ => if d = '.' || d = 'e' || d = 'E' then none
                      else some (.num (-(n : Int)), rest')
          | [] => some (.num (-(n : Int)), rest')
        | none => none
      else if c.isDigit then
        match parseJNat cs with
        | some (n, rest') =>
          match rest' with
          | d :: _ => if d = '.' || d = 'e' || d = 'E' then none
                      else some (.num (n : Int), rest')
          | [] => some (.num (n : Int), rest')
        | none => none
      else if c = '[' then
        match skipWs rest with
        | ']' :: rest' => some (.arr [], rest')
        | rest' =>
          match parseJArr fuel rest' with
          | some (xs, rest'') => some (.arr xs, rest'')
          | none => none
      else if c = '\x7b' then
        match skipWs rest with
        | '\x7d' :: rest' => some (.obj [], rest')
        | rest' =>
          match parseJObj fuel rest' with
          | some (kvs, rest'') => some (.obj (dedupPairs kvs), rest'')
          | none => none
      else none

def parseJArr : Nat → List Char → Option (List Json × List Char)
  | 0, _ => none
  | fuel + 1, cs =>
    match parseJVal fuel cs with
    | some (v, rest) =>
      match skipWs rest with
      | ',' :: rest' =>
        match parseJArr fuel (skipWs rest') with
        | some (xs, rest'') => some (v :: xs, rest'')
        | none => none
      | ']' :: rest' => some ([v], rest')
      | _ => none
    | none => none

/-- Parses the raw key/value pairs of an object body (duplicates are
resolved by the caller via `dedupPairs`, mirroring dict construction). -/
def parseJObj : Nat → List Char → Option (List (String × Json) × List Char)
  | 0, _ => none
  | fuel + 1, cs =>
    match cs with
    | '"' :: rest =>
      match parseJString (fuel + 1) rest with
      | some (k, rest') =>
        match skipWs rest' with
        | ':' :: rest'' =>
          match parseJVal fuel (skipWs rest'') with
          | some (v, rest3) =>
            match skipWs rest3 with
            | ',' :: rest4 =>
              match parseJObj fuel (skipWs rest4) with
              | some (kvs, rest5) => some ((k, v) :: kvs, rest5)
              | none => none
            | '\x7d' :: rest4 => some ([(k, v)], rest4)
            | _ => none
          | none => none
        | _ => none
      | none => none
    | _ => none
end

/-- Model of `json.loads(s)`: parse one JSON value surrounded only by whitespace. -/
def pyLoads (s : String) : Option Json :=
  let cs := skipWs s.toList
  match parseJVal (cs.length + 1) cs with
  | some (v, rest) => if (skipWs rest).isEmpty then some v else none
  | none => none

/-- Model of `json.loads` in the `Except` monad (failure = `json.JSONDecodeError`). -/
def pyLoadsE (s : String) : Except PyErr Json :=
  match pyLoads s with
  | some j => .ok j
  | none => .error .jsonDecodeError

/-! ## Shared helpers of `api/backend.py` (and `api/backend_simplified.py`)

`clean_json_response` is textually identical in both backend files
(backend.py lines 21-33, backend_simplified.py lines 20-29). -/

/-- Model of `clean_json_response` (api/backend.py lines 21-33): strip, remove a
leading ```` ```json ````, a leading ```` ``` ````, a trailing ```` ``` ````,
strip again. -/
def clean_json_response (text : String) : String :=
  let result := pyStrip text
  let result := if pyStartswith result "```json" then pyDrop 7 result else result
  let result := if pyStartswith result "```" then pyDrop 3 result else result
  let result := if pyEndswith result "```" then pyDropRight 3 result else result
  pyStrip result

/-- The post-processing pipeline exactly as the specification words it
(claim C6): strip surrounding whitespace; if the result starts with
"```json" drop its first 7 characters; then if it starts with "```" drop its
first 3 characters; then if it ends with "```" drop its last 3 characters;
strip surrounding whitespace again; return the result. -/
def cleanStepsSpec (s : String) : String :=
  let r1 := pyStrip s
  let r2 := if pyStartswith r1 "```json" then pyDrop 7 r1 else r1
  let r3 := if pyStartswith r2 "```" then pyDrop 3 r2 else r2
  let r4 := if pyEndswith r3 "```" then pyDropRight 3 r3 else r3
  pyStrip r4

/-- Model of `call_ai` (api/backend.py lines 35-48): the chat-completion call is the
oracle `resp`; on success the response content is cleaned, a raised
exception propagates. -/
def call_ai (resp : Except PyErr String) : Except PyErr String :=
  match resp with
  | .ok content => .ok (clean_json_response content)
  | .error e => .error e

/-- Model of `parse_json_response` (api/backend.py lines 50-55):
`json.loads(clean_json_response(text))`. -/
def parse_json_response (text : String) : Except PyErr Json :=
  pyLoadsE (clean_json_response text)

/-- Model of the regex search for a brace span (DOTALL, greedy): greedy, so the match (when it
exists) runs from the first `{` to the last `}` of the whole text. -/
def braceSpan (s : String) : Option String :=
  let cs := s.toList
  match cs.findIdx? (fun x => x = '\x7b') with
  | none => none
  | some i =>
    match (cs.reverse.findIdx? (fun x => x = '\x7d')).map
        (fun k => cs.length - 1 - k) with
    | some j => if i < j then some (String.mk ((cs.drop i).take (j - i + 1)))
                else none
    | none => none

/-- Model of `parse_json_response` of `api/backend_simplified.py` (lines 45-55):
try `json.loads(text)` directly; on `JSONDecodeError` search for a
`\{.*\}` span and parse that; re-raise when there is none. -/
def parse_json_response_simplified (text : String) : Except PyErr Json :=
  match pyLoads text with
  | some j => .ok j
  | none =>
    match braceSpan text with
    | some sub => pyLoadsE sub
    | none => .error .jsonDecodeError

/-! ## `api/index.py` -/

/-- HTTP error raised by a handler (`HTTPException(status_code, detail)`). -/
structure HTTPError where
  status : Nat
  detail : String
  deriving DecidableEq, Repr

def keyMissingMsg : String := "OPENAI_API_KEY not configured"

/-- Python `str(e)` for a modelled exception. -/
def pyErrStr : PyErr → String
  | .jsonDecodeError => "JSONDecodeError"
  | .attributeError => "AttributeError"
  | .typeError => "TypeError"
  | .valueError => "ValueError"
  | .apiError m => m

/-- Handler of POST `/api/chat` (api/index.py lines 35-52).  `resp` is the oracle for
`client.chat.completions.create(...)`: `.ok content` is the returned message
content, `.error` a raised exception.  The reply is returned unmodified. -/
def chat (apiKeySet : Bool) (resp : Except PyErr String) (_message : String) :
    Except HTTPError String :=
  if !apiKeySet then .error ⟨500, keyMissingMsg⟩
  else
    match resp with
    | .ok content => .ok content
    | .error e =>
      .error ⟨500, "Error calling OpenAI API: " ++ pyErrStr e⟩

def noSceneMsg : String :=
  "This prompt doesn\x27t clearly describe a visual scene. Please provide more details about what background you want to see."

def clearDescMsg : String :=
  "Please provide a clear description of the background you want to see, not a test or placeholder text."

def vpKeywords : List String := ["test", "dummy", "placeholder", "example", "sample"]

/-- Model of `validate_prompt_makes_sense` (api/index.py lines 54-104).  `resp` is
the oracle for the validator chat call; a raised exception is caught and the
prompt is allowed. -/
def validate_prompt_makes_sense (resp : Except PyErr String) (prompt : String) :
    Bool × String :=
  match resp with
  | .error _ => (true, "")
  | .ok content =>
    let result := pyUpper (pyStrip content)
    if pyStartswith result "VALID" then (true, "")
    else if pyStartswith result "INVALID" then
      let explanation := pyStrip (pyReplace result "INVALID" "")
      let explanation :=
        if pyStartswith explanation ":" then pyStrip (pyDrop 1 explanation)
        else explanation
      (false, if explanation ≠ "" then explanation else noSceneMsg)
    else
      if (pySplitWs prompt).length < 3
          || vpKeywords.any (fun word => pyIn word (pyLower prompt)) then
        (false, clearDescMsg)
      else (true, "")

def tooShortMsg : String := "Prompt is too short. Please provide more details."

def tooLongMsg : String :=
  "Prompt is too long. Please keep it under 1000 characters."

def policyViolationMsg : String :=
  "This prompt may violate content policies. Please try a different, more appropriate description."

def invalidPromptMsg : String :=
  "The prompt doesn\x27t make sense or is invalid. Please provide a clearer description of the background you want."

/-- Handler of POST `/api/generate-image` (api/index.py lines 106-159).  `validatorResp` is
the oracle for the validation chat call; `imageResult` is the oracle for the
whole generate-fetch-base64 block: `.ok dataUrl` on success, `.error estr`
models a raised exception with message `str(e) = estr`.  Besides the HTTP
result we record whether the validator and the image generation were
invoked. -/
def generate_image (apiKeySet : Bool) (validatorResp : Except PyErr String)
    (imageResult : Except String String) (rawPrompt : String) :
    Except HTTPError String × Bool × Bool :=
  if !apiKeySet then (.error ⟨500, keyMissingMsg⟩, false, false)
  else
    let prompt := pyStrip rawPrompt
    if prompt.length < 3 then (.error ⟨400, tooShortMsg⟩, false, false)
    else if prompt.length > 1000 then (.error ⟨400, tooLongMsg⟩, false, false)
    else
      let v := validate_prompt_makes_sense validatorResp prompt
      if !v.1 then
        (.error ⟨400, if v.2 ≠ "" then v.2 else noSceneMsg⟩, true, false)
      else
        match imageResult with
        | .ok dataUrl => (.ok dataUrl, true, true)
        | .error estr =>
          let error_str := pyLower estr
          if pyIn "content_policy" error_str || pyIn "safety" error_str
              || pyIn "policy" error_str then
            (.error ⟨400, policyViolationMsg⟩, true, true)
          else if pyIn "invalid" error_str || pyIn "malformed" error_str then
            (.error ⟨400, invalidPromptMsg⟩, true, true)
          else
            (.error ⟨500, "Error generating image: " ++ estr⟩, true, true)

/-! ## `api/backend.py`: the learning-plan pipeline

External effects are oracles:
* the chat-completion calls are `Except PyErr String` values (the response
  content, or a raised exception);
* `validate_url` (lines 142-306) is network- and LLM-determined end to end,
  so it is abstracted as an oracle `Json → String → Except PyErr Json`
  mapping a resource and the topic to the awaited task outcome (`Json.null`
  models its `None` result; `.error` a task exception, which
  `asyncio.gather(..., return_exceptions=True)` turns into a skipped value);
* the DuckDuckGo scrape is an oracle producing the `(get_text(strip=True),
  href)` pairs of the anchors found by BeautifulSoup, or a raised exception.

Each `asyncio.gather` performed is recorded in a `List Nat` log holding the
length of the task list it combines. -/

def mapME {α β : Type} (f : α → Except PyErr β) : List α → Except PyErr (List β)
  | [] => .ok []
  | a :: as => do
    let b ← f a
    let bs ← mapME f as
    .ok (b :: bs)

def filterME {α : Type} (p : α → Except PyErr Bool) : List α → Except PyErr (List α)
  | [] => .ok []
  | a :: as => do
    let b ← p a
    let rest ← filterME p as
    .ok (if b then a :: rest else rest)

def unableMsg : String :=
  "Unable to validate this topic. Please enter a clear, learnable subject, skill, or concept."

/-- The `clean_topic` value as computed in the fallback paths (lines 677-678 and
721-722): drop trailing punctuation, strip, collapse whitespace runs. -/
def fallbackCleanTopic (topic : String) : String :=
  collapseWs (pyStrip (dropTrailingPunct topic))

structure ExtractResult where
  clean_topic : String
  num_resources : Int
  message : String
  num_steps : Option Int
  is_valid : Bool
  validation_message : String
  deriving DecidableEq, Repr

/-- The state the `except` handler of `extract_validate_and_prepare_topic`
observes when the `try` body raises: the exception together with the
`num_resources`, `message` and `num_steps` values mutated so far. -/
abbrev ExtractErr := PyErr × Int × String × Option Int

/-- Lines 684-699: the `num_resources` / `resource_message` block, yielding
`(num_resources, message)`. -/
def extractResource (data : Json) : Except PyErr (Int × String) :=
  match pyGet data "num_resources" Json.null with
  | .error e => .error e
  | .ok nrv =>
    if nrv.truthy then
      match pyInt nrv with
      | .error e => .error e
      | .ok requested_num =>
        match pyGet data "resource_message" (Json.str "") with
        | .error e => .error e
        | .ok rmv =>
          match pyStrType rmv with
          | .error e => .error e
          | .ok rms =>
            let resource_msg := pyStrip rms
            if resource_msg ≠ "" then
              match firstDigitRun resource_msg with
              | some d =>
                -- the captured group is a digit run, so `int` cannot fail
                .ok ((strToInt d).getD requested_num, resource_msg)
              | none => .ok (requested_num, resource_msg)
            else .ok (requested_num, "")
    else .ok (5, "")

/-- Lines 702-703: the `num_steps` block. -/
def extractSteps (data : Json) : Except PyErr (Option Int) :=
  match pyGet data "num_steps" Json.null with
  | .error e => .error e
  | .ok nsv =>
    if nsv.truthy then
      match pyInt nsv with
      | .error e => .error e
      | .ok n => .ok (some n)
    else .ok none

/-- Lines 705-715: `is_valid` / `validation_message`, including the
strictness adjustment. -/
def extractValidity (data : Json) : Except PyErr (Bool × String) :=
  match pyGet data "is_valid" (Json.bool false) with
  | .error e => .error e
  | .ok ivv =>
    match pyGet data "validation_message" (Json.str "") with
    | .error e => .error e
    | .ok vmv =>
      match pyStrType vmv with
      | .error e => .error e
      | .ok vms =>
        let validation_message := pyStrip vms
        let is_valid := ivv.truthy
        let is_valid :=
          if validation_message ≠ "" && is_valid then
            if !(pyLower validation_message = "" ∨
                 pyLower validation_message = "valid" ∨
                 pyLower validation_message = "ok" : Bool) then false
            else is_valid
          else is_valid
        .ok (is_valid, validation_message)

/-- The `try` body of `extract_validate_and_prepare_topic`
(api/backend.py lines 617-715).  `ai` is the oracle for the combined
extraction/validation chat call. -/
def extractTry (ai : Except PyErr String) (topic : String) :
    Except ExtractErr ExtractResult :=
  match ai with
  | .error e => .error (e, 5, "", none)
  | .ok content =>
    let result := clean_json_response content      -- call_ai cleans
    match pyLoadsE (clean_json_response result) with  -- parse_json_response
    | .error e => .error (e, 5, "", none)
    | .ok data =>
      match pyGet data "topic" Json.null with
      | .error e => .error (e, 5, "", none)
      | .ok extracted_topic =>
        let clean_topic :=
          if extracted_topic.truthy then pyStrip (pyStr extracted_topic)
          else fallbackCleanTopic topic
        let clean_topic := if clean_topic = "" then pyStrip topic else clean_topic
        match extractResource data with
        | .error e => .error (e, 5, "", none)
        | .ok (num_resources, message) =>
          match extractSteps data with
          | .error e => .error (e, num_resources, message, none)
          | .ok num_steps =>
            match extractValidity data with
            | .error e => .error (e, num_resources, message, num_steps)
            | .ok (is_valid, validation_message) =>
              .ok ⟨clean_topic, num_resources, message, num_steps,
                   is_valid, validation_message⟩

/-- Model of `extract_validate_and_prepare_topic` (api/backend.py lines 603-726).
On an exception anywhere in the `try` body the handler (lines 717-724)
recomputes `clean_topic`, rejects the topic with the fixed message, and the
other components keep the values mutated before the raise. -/
def extract_validate_and_prepare_topic (ai : Except PyErr String)
    (topic : String) : ExtractResult :=
  match extractTry ai topic with
  | .ok r => { r with message := pyStrip r.message }
  | .error (_, nr, msg, ns) =>
    { clean_topic := fallbackCleanTopic topic
      num_resources := nr
      message := pyStrip msg
      num_steps := ns
      is_valid := false
      validation_message := unableMsg }

/-- The hardcoded three-step fallback plan (identical at lines 396-400 and
469-473). -/
def fixed3Json (topic : String) : Json :=
  Json.arr [
    Json.obj [("title", Json.str ("Step 1: Research " ++ topic)),
              ("description",
               Json.str ("Start by researching the basics of " ++ topic ++ " online."))],
    Json.obj [("title", Json.str "Step 2: Find Examples"),
              ("description",
               Json.str ("Look for real-world examples of " ++ topic ++
                 " to understand practical applications."))],
    Json.obj [("title", Json.str "Step 3: Practice"),
              ("description",
               Json.str ("Try applying what you\x27ve learned about " ++ topic ++
                 " through hands-on practice."))]]

/-- Computation `min_resources = min(3, num_examples) if num_examples < 3 else 3`
(lines 392 and 477). -/
def minResources (num_examples : Int) : Int :=
  if num_examples < 3 then min 3 num_examples else 3

structure GenOracle where
  mainAI : Except PyErr String
  validateUrl : Json → String → Except PyErr Json
  fallbackAI : Except PyErr String
  scrape : Except PyErr (List (String × String))
  fallbackAI2 : Except PyErr String

/-- The result-collection loop after a gather (lines 380-387 and 437-444,
571-578): exceptions are skipped, and a result is kept when it is truthy
and a dict. -/
def collectValid (results : List (Except PyErr Json)) (acc : List Json) :
    List Json :=
  match results with
  | [] => acc
  | .error _ :: rest => collectValid rest acc
  | .ok v :: rest =>
    if v.truthy && v.isObj then collectValid rest (acc ++ [v])
    else collectValid rest acc

/-- The raising part of the `try` body of `generate_plan_and_resources`
(lines 314-375): AI call, JSON parse, the `.get`s, the debug prints (whose
`len(...)` and `res.get(...)` raise on ill-typed data exactly as in
Python), and the construction of the URL-validation task list from
`resources[:num_examples]`.  Everything after this point up to the `return`
of the `try` branch cannot raise uncaught. -/
def genParse (o : GenOracle) (num_examples : Int) :
    Except PyErr (Json × List Json) := do
  let content ← o.mainAI
  let result := clean_json_response content        -- call_ai cleans
  let data ← pyLoadsE (clean_json_response result) -- parse_json_response
  let plan ← pyGet data "plan" (Json.arr [])
  let resources ← pyGet data "resources" (Json.arr [])
  let _ ← pyLen resources                          -- debug print (line 370)
  let rlist ← pyIterate resources                  -- debug loop (lines 371-372)
  let _ ← mapME (fun res => do
      let _ ← pyGet res "title" (Json.str "No title")
      let _ ← pyGet res "url" (Json.str "No URL")
      pure Json.null) rlist
  let sliced ← pySliceTo resources num_examples
  let tasks ← pyIterate sliced
  pure (plan, tasks)

/-- The condition of the comprehension `[r for r in fallback_resources if
r.get('url') and r.get('url').startswith('http') and r.get('url') not in
existing_urls]` (lines 431 and 565). -/
def newResourceCond (existing_urls : List Json) (r : Json) :
    Except PyErr Bool := do
  let u ← pyGet r "url" Json.null
  if !u.truthy then pure false
  else do
    let sw ← pyStartswithJ u "http"
    if !sw then pure false
    else pure (!(existing_urls.contains u))

/-- The include-unvalidated-resources loop (lines 449-460 and 582-594). -/
def unvalLoop (topic : String) (minR : Int) :
    List Json → List Json → List Json → Except PyErr (List Json)
  | [], examples, _ => .ok examples
  | r :: rest, examples, seen =>
    if minR ≤ (examples.length : Int) then .ok examples
    else do
      let u ← pyGet r "url" Json.null
      if u.truthy then do
        let sw ← pyStartswithJ u "http"
        if sw && !(seen.contains u) then do
          let t ← pyGet r "title" (Json.str (topic ++ " Resource"))
          let d ← pyGet r "description" (Json.str ("Learn about " ++ topic))
          unvalLoop topic minR rest
            (examples ++ [Json.obj [("title", t), ("url", u), ("description", d)]])
            (u :: seen)
        else unvalLoop topic minR rest examples seen
      else unvalLoop topic minR rest examples seen

/-- The `try` body of one retry-with-a-larger-batch round (lines 406-460;
the identical block at lines 540-594 differs only in prompt text and AI
call site).  Returns the updated examples and the length of the task list
passed to the gather it performs. -/
def fallbackRoundTry (ai : Except PyErr String)
    (vo : Json → String → Except PyErr Json) (topic : String) (minR : Int)
    (examples : List Json) : Except PyErr (List Json × Nat) := do
  let content ← ai
  let fallback_result := clean_json_response content   -- call_ai cleans
  let fallback_resources ← pyLoadsE (clean_json_response fallback_result)
  let _ ← pyLen fallback_resources                     -- debug print
  let existing_urls ← mapME (fun ex => pyGet ex "url" Json.null) examples
  let fbList ← pyIterate fallback_resources
  let new_resources ← filterME (newResourceCond existing_urls) fbList
  -- asyncio.gather over one validate_url task per new resource
  let results := new_resources.map (fun r => vo r topic)
  let examples2 := collectValid results examples
  let examples3 ←
    if (examples2.length : Int) < minR then
      unvalLoop topic minR new_resources examples2 existing_urls
    else pure examples2
  pure (examples3, new_resources.length)

/-- One retry round with its `except: pass` (lines 461-463 and 595-597).
Every raising step of the round precedes its gather, so on an exception the
examples are unchanged and no gather happened. -/
def fallbackRound (ai : Except PyErr String)
    (vo : Json → String → Except PyErr Json) (topic : String) (minR : Int)
    (examples : List Json) : List Json × List Nat :=
  match fallbackRoundTry ai vo topic minR examples with
  | .ok (ex, n) => (ex, [n])
  | .error _ => (examples, [])

/-- Cleanup of DuckDuckGo redirect URLs (lines 506-525): `none` models
`continue`.  When `'uddg='` does not occur in the URL, `parse_qs` cannot
yield a `'uddg'` key with a value, so that branch always continues. -/
def ddgClean (url : String) : Option String :=
  if pyStartswith url "/l/?" || pyIn "uddg=" url then
    if pyIn "uddg=" url then
      match url.splitOn "uddg=" with
      | _ :: p1 :: _ =>
        let encoded_url := (p1.splitOn "&").headD ""
        let u := pyUnquote encoded_url
        if pyStartswith u "http" then some u else none
      | _ => none
    else none
  else some url

/-- Comparison of `ex` at key url against `url` for the scrape-built example dicts (which always
carry a string `url`). -/
def exHasUrl (e : Json) (u : String) : Bool :=
  match e with
  | .obj kvs =>
    match lookupJ kvs "url" with
    | some (Json.str s) => s = u
    | _ => false
  | _ => false

/-- The scraping result loop (lines 495-532). -/
def scrapeLoop (topic : String) (minR : Int) :
    List (String × String) → List Json → List Json
  | [], examples => examples
  | (title, url) :: rest, examples =>
    if minR ≤ (examples.length : Int) then examples
    else if title = "" || url = "" then scrapeLoop topic minR rest examples
    else
      match ddgClean url with
      | none => scrapeLoop topic minR rest examples
      | some u =>
        if pyStartswith u "http" && !(examples.any (fun e => exHasUrl e u)) then
          scrapeLoop topic minR rest
            (examples ++ [Json.obj
              [("title", Json.str (pyTake 100 title)),
               ("url", Json.str u),
               ("description",
                Json.str ("Learn more about " ++ topic ++ " with this resource"))]])
        else scrapeLoop topic minR rest examples

/-- The scraping `try` (lines 481-532): the network fetch and soup parsing
are the oracle; `find_all(..., limit=min_resources - len(examples) + 2)`
truncates the anchor list. -/
def scrapeTry (scrape : Except PyErr (List (String × String))) (topic : String)
    (minR : Int) (examples : List Json) : Except PyErr (List Json) := do
  let anchors ← scrape
  let limited := anchors.take (minR - (examples.length : Int) + 2).toNat
  pure (scrapeLoop topic minR limited examples)

/-- The examples produced by the `except` branch of
`generate_plan_and_resources` (lines 474-601), with its gather log. -/
def genExceptExamples (o : GenOracle) (topic : String) (num_examples : Int) :
    List Json × List Nat :=
  let minR := minResources num_examples
  let examples : List Json := []
  let examples :=
    if (examples.length : Int) < minR then
      match scrapeTry o.scrape topic minR examples with
      | .ok ex => ex
      | .error _ => examples
    else examples
  let fb :=
    if (examples.length : Int) < minR then
      fallbackRound o.fallbackAI2 o.validateUrl topic minR examples
    else (examples, [])
  (listSliceTo fb.1 num_examples, fb.2)

/-- The `except` branch of `generate_plan_and_resources` (lines 467-601):
the plan is the hardcoded three-step fallback; the examples come from
scraping and the retry round; `examples[:num_examples]` is returned. -/
def genExceptBranch (o : GenOracle) (topic : String) (num_examples : Int) :
    Json × List Json × List Nat :=
  (fixed3Json topic, genExceptExamples o topic num_examples)

/-- The tail of the `try` branch after `genParse` (lines 376-465): gather
the validation tasks, collect valid results, substitute the fallback plan
when the plan is falsy, retry when short of resources, and return the plan
and the (untruncated) examples. -/
def genAssembleRest (o : GenOracle) (topic : String) (num_examples : Int)
    (tasks : List Json) : List Json × List Nat :=
  let results := tasks.map (fun r => o.validateUrl r topic)  -- asyncio.gather
  let examples := collectValid results []
  let minR := minResources num_examples
  if (examples.length : Int) < minR then
    let fb := fallbackRound o.fallbackAI o.validateUrl topic minR examples
    (fb.1, tasks.length :: fb.2)
  else (examples, [tasks.length])

def genAssemble (o : GenOracle) (topic : String) (num_examples : Int)
    (plan : Json) (tasks : List Json) : Json × List Json × List Nat :=
  (if plan.truthy then plan else fixed3Json topic,
   genAssembleRest o topic num_examples tasks)

/-- Model of `generate_plan_and_resources` (api/backend.py lines 308-601), returning
`(plan, examples, gather log)`.  `num_steps` only shapes the prompt text,
which the oracle abstracts. -/
def generate_plan_and_resources (o : GenOracle) (topic : String)
    (_num_steps : Option Int) (num_examples : Int) :
    Json × List Json × List Nat :=
  match genParse o num_examples with
  | .ok (plan, tasks) => genAssemble o topic num_examples plan tasks
  | .error _ => genExceptBranch o topic num_examples

/-! ## `/api/learn` (api/backend.py lines 728-760) -/

/-- pydantic coercion of a JSON value into `Dict[str, str]`. -/
def coerceStrDict : Json → Option (List (String × String))
  | .obj kvs => kvs.mapM (fun kv =>
      match kv.2 with
      | .str s => some (kv.1, s)
      | _ => none)
  | _ => none

/-- pydantic coercion of the plan into `List[Dict[str, str]]`. -/
def coercePlan : Json → Option (List (List (String × String)))
  | .arr xs => xs.mapM coerceStrDict
  | _ => none

def coerceExamples (xs : List Json) : Option (List (List (String × String))) :=
  xs.mapM coerceStrDict

structure LearningPlanResponse where
  plan : List (List (String × String))
  examples : List (List (String × String))
  message : String
  deriving DecidableEq, Repr

structure LearnOracle where
  extractAI : Except PyErr String
  gen : GenOracle

def invalidTopicDefault : String :=
  "This doesn\x27t seem like a valid learning topic. Please enter something specific you want to learn."

/-- Model of `create_learning_experience` (api/backend.py lines 728-760), returning
the HTTP outcome and the gather log of the request. -/
def create_learning_experience (o : LearnOracle) (apiKeySet : Bool)
    (topic : String) : Except HTTPError LearningPlanResponse × List Nat :=
  if !apiKeySet then (.error ⟨500, keyMissingMsg⟩, [])
  else
    let original_topic := pyStrip topic
    let er := extract_validate_and_prepare_topic o.extractAI original_topic
    if !er.is_valid then
      (.error ⟨400, if er.validation_message ≠ "" then er.validation_message
                    else invalidTopicDefault⟩, [])
    else
      let g := generate_plan_and_resources o.gen er.clean_topic
                 er.num_steps er.num_resources
      match coercePlan g.1, coerceExamples g.2.1 with
      | some p, some ex => (.ok ⟨p, ex, er.message⟩, g.2.2)
      | _, _ =>
        (.error ⟨500,
          "Error creating learning experience: response validation failed"⟩,
         g.2.2)

/-! ## Derived definitions used in the theorem statements -/

/-- The explanation that `validate_prompt_makes_sense` extracts from an
`INVALID`-prefixed (cleaned, uppercased) validator reply: remove every
occurrence of `INVALID`, strip, drop one leading `:`, strip. -/
def invalidRawExplanation (result : String) : String :=
  let explanation := pyStrip (pyReplace result "INVALID" "")
  if pyStartswith explanation ":" then pyStrip (pyDrop 1 explanation)
  else explanation

/-- The 400-detail carried for an `INVALID` validator reply: the extracted
explanation, or the fixed default message when it is empty. -/
def invalidExplanation (result : String) : String :=
  if invalidRawExplanation result ≠ "" then invalidRawExplanation result
  else noSceneMsg

/-! ## Concrete oracles used by witnesses and counterexamples -/

/-- A well-formed reply of the combined extraction/validation call. -/
def okExtractContent : String :=
  "\x7b\"topic\": \"python\", \"is_valid\": true, \"validation_message\": \"\"\x7d"

/-- A well-formed reply of the combined plan/resource generation call,
carrying one plan step and one resource. -/
def goodPlanContent : String :=
  "\x7b\"plan\": [\x7b\"title\": \"Step 1\", \"description\": \"d\"\x7d], \"resources\": [\x7b\"url\": \"http://a\", \"title\": \"A\", \"description\": \"da\"\x7d]\x7d"

/-- Generation oracle: main call succeeds with one resource, the URL
validator accepts every resource, every fallback call raises. -/
def genOracleW : GenOracle :=
  { mainAI := .ok goodPlanContent
    validateUrl := fun r _ => .ok r
    fallbackAI := .error (.apiError "connection error")
    scrape := .error (.apiError "connection error")
    fallbackAI2 := .error (.apiError "connection error") }

/-- Learning-plan oracle for a successful request. -/
def learnOracleW : LearnOracle :=
  { extractAI := .ok okExtractContent, gen := genOracleW }

/-- Generation oracle whose main AI call raises. -/
def genOracleE : GenOracle :=
  { mainAI := .error (.apiError "connection error")
    validateUrl := fun r _ => .ok r
    fallbackAI := .error (.apiError "connection error")
    scrape := .error (.apiError "connection error")
    fallbackAI2 := .error (.apiError "connection error") }

/-- The pydantic-coerced form of the hardcoded three-step fallback plan. -/
def fixed3Plan (topic : String) : List (List (String × String)) :=
  [[("title", "Step 1: Research " ++ topic),
    ("description", "Start by researching the basics of " ++ topic ++ " online.")],
   [("title", "Step 2: Find Examples"),
    ("description", "Look for real-world examples of " ++ topic ++
      " to understand practical applications.")],
   [("title", "Step 3: Practice"),
    ("description", "Try applying what you\x27ve learned about " ++ topic ++
      " through hands-on practice.")]]

/-- Generation oracle whose main AI call raises while the scraping fallback
succeeds with three well-formed anchors, so the request still answers 200 —
with the fallback plan. -/
def genOracleES : GenOracle :=
  { mainAI := .error (.apiError "connection error")
    validateUrl := fun r _ => .ok r
    fallbackAI := .error (.apiError "connection error")
    scrape := .ok [("Tutorial A", "http://a"), ("Tutorial B", "http://b"),
                   ("Tutorial C", "http://c")]
    fallbackAI2 := .error (.apiError "connection error") }

/-- An extraction reply that validates the topic but carries no `topic`
key, so the clean topic falls back to the regex-cleaned input. -/
def extractNoTopicContent : String :=
  "\x7b\"is_valid\": true, \"validation_message\": \"\"\x7d"

def learnOracleES : LearnOracle :=
  { extractAI := .ok extractNoTopicContent, gen := genOracleES }

/-- The 200 response `learnOracleES` produces: the fallback plan plus the
three scraped resources. -/
def fallbackRespW : LearningPlanResponse :=
  { plan := fixed3Plan "python"
    examples :=
      [[("title", "Tutorial A"), ("url", "http://a"),
        ("description", "Learn more about python with this resource")],
       [("title", "Tutorial B"), ("url", "http://b"),
        ("description", "Learn more about python with this resource")],
       [("title", "Tutorial C"), ("url", "http://c"),
        ("description", "Learn more about python with this resource")]]
    message := "" }

/-! # Theorems -/

/-! ## Shared helper lemmas -/

/-- A string that starts with `INVALID` does not start with `VALID`. -/
theorem startswith_INVALID_not_VALID (s : String)
    (h : pyStartswith s "INVALID" = true) : pyStartswith s "VALID" = false := by
  unfold pyStartswith at h ⊢
  have hI : "INVALID".toList = ['I', 'N', 'V', 'A', 'L', 'I', 'D'] := rfl
  have hV : "VALID".toList = ['V', 'A', 'L', 'I', 'D'] := rfl
  rw [hI] at h
  rw [hV]
  cases hs : s.toList with
  | nil => rw [hs] at h; simp [List.isPrefixOf] at h
  | cons c cs =>
    rw [hs] at h
    simp only [List.isPrefixOf, Bool.and_eq_true, beq_iff_eq] at h
    simp only [List.isPrefixOf]
    rw [← h.1]
    simp

/-- The result of `extract_validate_and_prepare_topic` when the combined
AI call raises. -/
theorem extract_error_eq (e : PyErr) (topic : String) :
    extract_validate_and_prepare_topic (.error e) topic =
      ⟨fallbackCleanTopic topic, 5, "", none, false, unableMsg⟩ := rfl

/-- POST `/api/learn` answers 400 with the fixed message when the combined
extraction/validation call raises. -/
theorem create_400_of_extract_error (e : PyErr) (g : GenOracle) (topic : String) :
    (create_learning_experience ⟨.error e, g⟩ true topic).1 =
      .error ⟨400, unableMsg⟩ := rfl

/-- The gather log of one fallback round has at most one entry. -/
theorem fallbackRound_log_le1 (ai : Except PyErr String)
    (vo : Json → String → Except PyErr Json) (topic : String) (minR : Int)
    (examples : List Json) :
    ((fallbackRound ai vo topic minR examples).2).length ≤ 1 := by
  unfold fallbackRound
  cases h : fallbackRoundTry ai vo topic minR examples with
  | ok r => simp
  | error e => simp

theorem genAssembleRest_log_le2 (o : GenOracle) (topic : String)
    (num_examples : Int) (tasks : List Json) :
    ((genAssembleRest o topic num_examples tasks).2).length ≤ 2 := by
  unfold genAssembleRest
  dsimp only
  split
  · have h := fallbackRound_log_le1 o.fallbackAI o.validateUrl topic
      (minResources num_examples)
      (collectValid (tasks.map fun r => o.validateUrl r topic) [])
    simp only [List.length_cons]
    omega
  · simp

theorem genExceptExamples_log_le1 (o : GenOracle) (topic : String)
    (num_examples : Int) :
    ((genExceptExamples o topic num_examples).2).length ≤ 1 := by
  unfold genExceptExamples
  dsimp only
  split
  all_goals try split
  all_goals first
    | exact fallbackRound_log_le1 _ _ _ _ _
    | simp

/-- Per generation call, at most two gathers are performed. -/
theorem gen_log_le2 (o : GenOracle) (topic : String) (ns : Option Int)
    (ne : Int) :
    ((generate_plan_and_resources o topic ns ne).2.2).length ≤ 2 := by
  unfold generate_plan_and_resources
  cases h : genParse o ne with
  | ok pr =>
    show ((genAssemble o topic ne pr.1 pr.2).2.2).length ≤ 2
    exact genAssembleRest_log_le2 o topic ne pr.2
  | error e =>
    show ((genExceptBranch o topic ne).2.2).length ≤ 2
    have h1 := genExceptExamples_log_le1 o topic ne
    exact Nat.le_trans h1 (by omega)

/-- The plan returned by `generate_plan_and_resources` is either the
hardcoded fallback or a truthy value. -/
theorem gen_plan_shape (o : GenOracle) (topic : String) (ns : Option Int)
    (ne : Int) :
    (generate_plan_and_resources o topic ns ne).1 = fixed3Json topic ∨
    (generate_plan_and_resources o topic ns ne).1.truthy = true := by
  unfold generate_plan_and_resources
  cases h : genParse o ne with
  | error e => left; rfl
  | ok pr =>
    show (genAssemble o topic ne pr.1 pr.2).1 = _ ∨ _
    by_cases hp : pr.1.truthy = true
    · right; simp [genAssemble, hp]
    · left; simp [genAssemble, Bool.of_not_eq_true hp]

/-- pydantic coercion of the fallback plan (for any topic). -/
theorem coercePlan_fixed3 (t : String) :
    coercePlan (fixed3Json t) = some (fixed3Plan t) := rfl

/-- A truthy JSON value that pydantic accepts as `List[Dict[str, str]]`
yields a non-empty list. -/
theorem coercePlan_truthy_ne_nil (j : Json) (p : List (List (String × String)))
    (ht : j.truthy = true) (hc : coercePlan j = some p) : p ≠ [] := by
  cases j with
  | arr xs =>
    cases xs with
    | nil => simp [Json.truthy] at ht
    | cons y ys =>
      simp only [coercePlan, List.mapM_cons] at hc
      cases h1 : coerceStrDict y with
      | none => rw [h1] at hc; simp at hc
      | some a =>
        rw [h1] at hc
        cases h2 : ys.mapM coerceStrDict with
        | none => rw [h2] at hc; simp at hc
        | some as =>
          rw [h2] at hc
          simp only [Option.pure_def, Option.bind_eq_bind, Option.some_bind,
            Option.some.injEq] at hc
          rw [← hc]
          simp
  | null => simp [coercePlan] at hc
  | bool b => simp [coercePlan] at hc
  | num n => simp [coercePlan] at hc
  | str s => simp [coercePlan] at hc
  | obj kvs => simp [coercePlan] at hc

/-! ## C3 -/

/-- C3: FALSE as stated — `/api/chat` returns the model content
unmodified; at the content `" hi "` the reply is `" hi "`, which differs
from its string-cleaned form. -/
theorem c3_counterexample :
    chat true (.ok " hi ") "q" = .ok " hi " ∧
    clean_json_response " hi " ≠ " hi " := ⟨rfl, by decide⟩

/-- C3 (amended): `/api/chat` returns the model message content with no
string-cleaning; the cleaning step belongs to `call_ai` of
`api/backend.py`, which returns the cleaned content. -/
theorem c3_amended (m content : String) :
    chat true (.ok content) m = .ok content ∧
    call_ai (.ok content) = .ok (clean_json_response content) := ⟨rfl, rfl⟩

/-! ## C6 -/

/-- C6: for every string, `clean_json_response` performs exactly the steps
the specification lists, in that order. -/
theorem c6_clean_json_response_steps (text : String) :
    clean_json_response text = cleanStepsSpec text := rfl

/-! ## C7 -/

/-- C7: FALSE as stated — at the input ```` ```1``` ````,
`parse_json_response` of api/backend.py returns `1` while
`parse_json_response` of api/backend_simplified.py raises
`JSONDecodeError`: the two neither both raise nor return equal values. -/
theorem c7_counterexample :
    parse_json_response "```1```" = .ok (Json.num 1) ∧
    parse_json_response_simplified "```1```" = .error .jsonDecodeError :=
  ⟨rfl, rfl⟩

/-- C7 (amended): the two `parse_json_response` implementations agree on
every input that markdown-cleaning leaves unchanged and that parses as
JSON; on fenced input they can differ (see the counterexample). -/
theorem c7_amended (text : String) (v : Json)
    (hclean : clean_json_response text = text) (hparse : pyLoads text = some v) :
    parse_json_response text = .ok v ∧
    parse_json_response_simplified text = .ok v := by
  constructor
  · unfold parse_json_response pyLoadsE
    rw [hclean, hparse]
  · unfold parse_json_response_simplified
    rw [hparse]

theorem c7_amended_witness :
    clean_json_response "\x7b\"a\": 1\x7d" = "\x7b\"a\": 1\x7d" ∧
    pyLoads "\x7b\"a\": 1\x7d" = some (Json.obj [("a", Json.num 1)]) ∧
    parse_json_response "\x7b\"a\": 1\x7d" = .ok (Json.obj [("a", Json.num 1)]) ∧
    parse_json_response_simplified "\x7b\"a\": 1\x7d" =
      .ok (Json.obj [("a", Json.num 1)]) :=
  ⟨rfl, rfl, (c7_amended "\x7b\"a\": 1\x7d" (Json.obj [("a", Json.num 1)]) rfl rfl).1,
   (c7_amended "\x7b\"a\": 1\x7d" (Json.obj [("a", Json.num 1)]) rfl rfl).2⟩

/-! ## C8 -/

/-- C8: when the combined extraction/validation AI call raises any
exception, `extract_validate_and_prepare_topic` returns `is_valid = False`
with the fixed "Unable to validate this topic" message, and `/api/learn`
answers HTTP 400 with that message. -/
theorem c8_extract_exception_400 (e : PyErr) (topic : String) (g : GenOracle) :
    (extract_validate_and_prepare_topic (.error e) topic).is_valid = false ∧
    (extract_validate_and_prepare_topic (.error e) topic).validation_message =
      unableMsg ∧
    (create_learning_experience ⟨.error e, g⟩ true topic).1 =
      .error ⟨400, unableMsg⟩ :=
  ⟨rfl, rfl, create_400_of_extract_error e g topic⟩

/-! ## C1 -/

/-- C1: FALSE as stated — at a request whose combined extraction/validation
LLM call raises, the pipeline does not fall back to the fixed three-step
plan: the request fails with HTTP 400. -/
theorem c1_counterexample :
    (create_learning_experience
        ⟨.error (.apiError "connection error"), genOracleW⟩ true "python").1 =
      .error ⟨400, unableMsg⟩ := rfl

/-- C1 (amended): an exception in the *extraction/validation* stage fails
the request with HTTP 400 and the fixed validation message (no plan
fallback); an exception in the plan/resource *generation* stage makes
`generate_plan_and_resources` substitute the fixed three-step plan for the
plan component, and any HTTP-200 response such a request then produces
carries exactly that fallback plan (coerced by pydantic). -/
theorem c1_amended (e : PyErr) (g : GenOracle) (t1 t2 : String)
    (ns : Option Int) (ne : Int) (o : LearnOracle) (topic : String)
    (resp : LearningPlanResponse) (log : List Nat) :
    (create_learning_experience ⟨.error e, g⟩ true t1).1 =
      .error ⟨400, unableMsg⟩ ∧
    (genParse g ne = .error e →
      (generate_plan_and_resources g t2 ns ne).1 = fixed3Json t2) ∧
    (genParse o.gen
        (extract_validate_and_prepare_topic o.extractAI (pyStrip topic)).num_resources
        = .error e →
      create_learning_experience o true topic = (.ok resp, log) →
      resp.plan = fixed3Plan
        (extract_validate_and_prepare_topic o.extractAI (pyStrip topic)).clean_topic) := by
  refine ⟨create_400_of_extract_error e g t1, ?_, ?_⟩
  · intro h
    unfold generate_plan_and_resources
    rw [h]
    rfl
  · intro hgen h
    have hplan : (generate_plan_and_resources o.gen
        (extract_validate_and_prepare_topic o.extractAI (pyStrip topic)).clean_topic
        (extract_validate_and_prepare_topic o.extractAI (pyStrip topic)).num_steps
        (extract_validate_and_prepare_topic o.extractAI (pyStrip topic)).num_resources).1
        = fixed3Json
            (extract_validate_and_prepare_topic o.extractAI (pyStrip topic)).clean_topic := by
      unfold generate_plan_and_resources
      rw [hgen]
      rfl
    unfold create_learning_experience at h
    dsimp only at h
    split at h
    · exact absurd h (by simp)
    · split at h
      · exact absurd h (by simp)
      · split at h
        case _ p ex hp hex =>
          injection h with h1 h2
          injection h1 with h3
          rw [← h3]
          dsimp only
          rw [hplan, coercePlan_fixed3] at hp
          injection hp with hp'
          rw [← hp']
        case _ =>
          exact absurd h (by simp)

theorem c1_amended_witness :
    genParse genOracleE 3 = .error (.apiError "connection error") ∧
    (create_learning_experience
        ⟨.error (.apiError "connection error"), genOracleE⟩ true "x").1 =
      .error ⟨400, unableMsg⟩ ∧
    (generate_plan_and_resources genOracleE "x" none 3).1 = fixed3Json "x" ∧
    genParse learnOracleES.gen
        (extract_validate_and_prepare_topic learnOracleES.extractAI
          (pyStrip "python")).num_resources = .error (.apiError "connection error") ∧
    create_learning_experience learnOracleES true "python" =
      (.ok fallbackRespW, []) ∧
    fallbackRespW.plan = fixed3Plan
      (extract_validate_and_prepare_topic learnOracleES.extractAI
        (pyStrip "python")).clean_topic :=
  ⟨rfl,
   (c1_amended (.apiError "connection error") genOracleE "x" "x" none 3
      learnOracleES "python" fallbackRespW []).1,
   (c1_amended (.apiError "connection error") genOracleE "x" "x" none 3
      learnOracleES "python" fallbackRespW []).2.1 rfl,
   rfl,
   rfl,
   (c1_amended (.apiError "connection error") genOracleE "x" "x" none 3
      learnOracleES "python" fallbackRespW []).2.2 rfl rfl⟩

/-! ## C2 -/

/-- C2: FALSE as stated — a successful learning-plan request whose
generation reply carries a single resource performs one `asyncio.gather`
whose task list has length one, not two. -/
theorem c2_counterexample :
    (create_learning_experience learnOracleW true "python").2 = [1] ∧
    (create_learning_experience learnOracleW true "python").2 ≠ [2] := by
  have h1 : (create_learning_experience learnOracleW true "python").2 = [1] := rfl
  exact ⟨h1, fun h => by simp [h1] at h⟩

/-- C2 (amended): a learning-plan request performs at most two
`asyncio.gather` calls (the main URL-validation batch and at most one
fallback batch); each combines one URL-validation task per candidate
resource of that batch, so the task-list length is not fixed at two. -/
theorem c2_amended (o : LearnOracle) (apiKeySet : Bool) (topic : String) :
    ((create_learning_experience o apiKeySet topic).2).length ≤ 2 := by
  unfold create_learning_experience
  dsimp only
  split
  · simp
  · split
    · simp
    · split
      all_goals exact gen_log_le2 _ _ _ _

/-! ## C9 -/

/-- C9: `/api/generate-image` rejects a stripped prompt shorter than 3
characters with 400 and the too-short message, and one longer than 1000
characters with 400 and the too-long message, in both cases before the AI
validation and the image generation are invoked (both recorded flags are
false); and the image generation is attempted only when the stripped length
lies between 3 and 1000 inclusive. -/
theorem c9_length_gates (vo : Except PyErr String) (io : Except String String)
    (p : String) :
    ((pyStrip p).length < 3 →
      generate_image true vo io p = (.error ⟨400, tooShortMsg⟩, false, false)) ∧
    ((pyStrip p).length > 1000 →
      generate_image true vo io p = (.error ⟨400, tooLongMsg⟩, false, false)) ∧
    ((generate_image true vo io p).2.2 = true →
      3 ≤ (pyStrip p).length ∧ (pyStrip p).length ≤ 1000) := by
  refine ⟨?_, ?_, ?_⟩
  · intro h
    simp [generate_image, h]
  · intro h
    have h3 : ¬ (pyStrip p).length < 3 := by omega
    simp [generate_image, h3, h]
  · intro h
    by_cases h3 : (pyStrip p).length < 3
    · simp [generate_image, h3] at h
    · by_cases h1000 : (pyStrip p).length > 1000
      · simp [generate_image, h3, h1000] at h
      · omega

theorem c9_witness :
    ((pyStrip "a").length < 3 ∧
      generate_image true (.ok "VALID") (.ok "img") "a" =
        (.error ⟨400, tooShortMsg⟩, false, false)) ∧
    ((pyStrip (String.mk (List.replicate 1001 'x'))).length > 1000 ∧
      generate_image true (.ok "VALID") (.ok "img")
          (String.mk (List.replicate 1001 'x')) =
        (.error ⟨400, tooLongMsg⟩, false, false)) ∧
    ((generate_image true (.ok "VALID") (.ok "img") "abc").2.2 = true ∧
      3 ≤ (pyStrip "abc").length ∧ (pyStrip "abc").length ≤ 1000) :=
  ⟨⟨by decide, (c9_length_gates (.ok "VALID") (.ok "img") "a").1 (by decide)⟩,
   ⟨by decide,
    (c9_length_gates (.ok "VALID") (.ok "img")
      (String.mk (List.replicate 1001 'x'))).2.1 (by decide)⟩,
   rfl, (c9_length_gates (.ok "VALID") (.ok "img") "abc").2.2 rfl⟩

/-! ## C4 -/

/-- On an `INVALID`-prefixed (cleaned, uppercased) reply the validator
rejects with the extracted explanation (or the default). -/
theorem validate_invalid_eq (reply prompt : String)
    (h : pyStartswith (pyUpper (pyStrip reply)) "INVALID" = true) :
    validate_prompt_makes_sense (.ok reply) prompt =
      (false, invalidExplanation (pyUpper (pyStrip reply))) := by
  have hv := startswith_INVALID_not_VALID _ h
  unfold validate_prompt_makes_sense invalidExplanation invalidRawExplanation
  dsimp only
  rw [hv, h]
  simp

/-- For an `INVALID` reply the validation message is never empty (it is
the extracted explanation or the non-empty default), so the endpoint's
`validation_message or default` keeps it. -/
theorem invalidExplanation_ne_empty (s : String) : invalidExplanation s ≠ "" := by
  unfold invalidExplanation
  by_cases h : invalidRawExplanation s ≠ ""
  · simp [h]
  · simp [h]
    decide

theorem detail_or_default (s : String) :
    (if invalidExplanation s ≠ "" then invalidExplanation s else noSceneMsg) =
      invalidExplanation s := by
  rw [if_pos (invalidExplanation_ne_empty s)]

/-- C4: when the validator reply (stripped and uppercased) begins with
`INVALID` — and the prompt passes the length gates so the validator is
actually consulted — `/api/generate-image` raises HTTP 400 carrying the
extracted explanation (or the fixed default when it is empty) and the
image-generation call is never made. -/
theorem c4_invalid_reply_gives_400 (reply : String) (io : Except String String)
    (p : String)
    (h3 : ¬ (pyStrip p).length < 3) (h1000 : ¬ (pyStrip p).length > 1000)
    (hI : pyStartswith (pyUpper (pyStrip reply)) "INVALID" = true) :
    generate_image true (.ok reply) io p =
      (.error ⟨400, invalidExplanation (pyUpper (pyStrip reply))⟩, true, false) := by
  have hval := validate_invalid_eq reply (pyStrip p) hI
  simp [generate_image, h3, h1000, hval, detail_or_default,
    invalidExplanation_ne_empty (pyUpper (pyStrip reply))]

theorem c4_witness :
    pyStartswith (pyUpper (pyStrip "invalid: not a scene")) "INVALID" = true ∧
    generate_image true (.ok "invalid: not a scene") (.ok "img")
        "a nice sunset over mountains" =
      (.error ⟨400, "NOT A SCENE"⟩, true, false) :=
  ⟨by decide,
   by
    have h := c4_invalid_reply_gives_400 "invalid: not a scene" (.ok "img")
      "a nice sunset over mountains" (by decide) (by decide) (by decide)
    exact h.trans (by rfl)⟩

/-! ## C5 -/

theorem all_not_eq_not_any {α : Type} (l : List α) (p : α → Bool) :
    (l.all fun x => !p x) = !(l.any p) := by
  induction l with
  | nil => rfl
  | cons x xs ih => simp [List.all_cons, List.any_cons, ih]

/-- C5: when the validator reply starts with neither `VALID` nor `INVALID`
(after strip and uppercase), the prompt is accepted iff it has at least
three whitespace-separated words and none of the lowercase keywords
`test, dummy, placeholder, example, sample` occurs in the lowercased
prompt; otherwise the fixed clear-description message is returned. -/
theorem c5_unexpected_reply_heuristic (reply prompt : String)
    (hv : pyStartswith (pyUpper (pyStrip reply)) "VALID" = false)
    (hi : pyStartswith (pyUpper (pyStrip reply)) "INVALID" = false) :
    validate_prompt_makes_sense (.ok reply) prompt =
      (if 3 ≤ (pySplitWs prompt).length ∧
          (vpKeywords.all fun w => !pyIn w (pyLower prompt)) = true
       then (true, "") else (false, clearDescMsg)) := by
  unfold validate_prompt_makes_sense
  dsimp only
  rw [hv, hi, all_not_eq_not_any]
  by_cases h3 : (pySplitWs prompt).length < 3
  · have h3' : ¬ 3 ≤ (pySplitWs prompt).length := by omega
    simp [h3, h3']
  · have h3' : 3 ≤ (pySplitWs prompt).length := by omega
    cases hany : vpKeywords.any (fun w => pyIn w (pyLower prompt)) with
    | true => simp [h3, h3', hany]
    | false => simp [h3, h3', hany]

theorem c5_witness :
    pyStartswith (pyUpper (pyStrip "hmm unclear")) "VALID" = false ∧
    pyStartswith (pyUpper (pyStrip "hmm unclear")) "INVALID" = false ∧
    validate_prompt_makes_sense (.ok "hmm unclear")
        "a serene mountain landscape" = (true, "") ∧
    validate_prompt_makes_sense (.ok "hmm unclear") "dummy prompt words here" =
      (false, clearDescMsg) :=
  ⟨by decide, by decide,
   by
    have h := c5_unexpected_reply_heuristic "hmm unclear"
      "a serene mountain landscape" (by decide) (by decide)
    exact h.trans (by decide),
   by
    have h := c5_unexpected_reply_heuristic "hmm unclear"
      "dummy prompt words here" (by decide) (by decide)
    exact h.trans (by decide)⟩

/-! ## C10 -/

/-- C10: every HTTP-200 response of `/api/learn` carries a non-empty plan
list: a falsy model plan (empty or missing) and a raising generation call
are both replaced by the hardcoded three-step fallback before the response
is built, and any truthy plan that pydantic accepts is a non-empty list. -/
theorem c10_ok_plan_nonempty (o : LearnOracle) (key : Bool) (topic : String)
    (resp : LearningPlanResponse) (log : List Nat)
    (h : create_learning_experience o key topic = (.ok resp, log)) :
    resp.plan ≠ [] := by
  unfold create_learning_experience at h
  dsimp only at h
  split at h
  · exact absurd h (by simp)
  · split at h
    · exact absurd h (by simp)
    · split at h
      case _ p ex hp hex =>
        injection h with h1 h2
        injection h1 with h3
        rw [← h3]
        dsimp only
        rcases gen_plan_shape o.gen
            (extract_validate_and_prepare_topic o.extractAI (pyStrip topic)).clean_topic
            (extract_validate_and_prepare_topic o.extractAI (pyStrip topic)).num_steps
            (extract_validate_and_prepare_topic o.extractAI (pyStrip topic)).num_resources
          with hfix | htr
        · rw [hfix, coercePlan_fixed3] at hp
          injection hp with hp'
          rw [← hp']
          simp [fixed3Plan]
        · exact coercePlan_truthy_ne_nil _ p htr hp
      case _ =>
        exact absurd h (by simp)

theorem c10_witness :
    create_learning_experience learnOracleW true "python" =
      (.ok ⟨[[("title", "Step 1"), ("description", "d")]],
            [[("url", "http://a"), ("title", "A"), ("description", "da")]],
            ""⟩, [1]) ∧
    ([[("title", "Step 1"), ("description", "d")]] :
        List (List (String × String))) ≠ [] :=
  ⟨rfl,
   c10_ok_plan_nonempty learnOracleW true "python"
     ⟨[[("title", "Step 1"), ("description", "d")]],
      [[("url", "http://a"), ("title", "A"), ("description", "da")]], ""⟩
     [1] rfl⟩
